import Mathlib

/-!
Verification development for the ats-analyzer resume analysis pipeline.

Each Python service function is shallow-embedded as an executable Lean
definition over `List Char` / `String`, `Nat`, `Int` and `ℚ` (Python floats
are modelled as exact rationals; the claims checked here only evaluate the
arithmetic at points where the float and rational computations agree).
External collaborators (the sentence-embedding model, the OCR engine, the
PDF reader) are passed in as explicit parameters, mirroring the spec's
instruction to treat them as fixed deterministic functions.
-/

set_option allowUnsafeReducibility true
attribute [local semireducible] Rat.mul Rat.inv Rat.add Rat.sub Rat.div Rat.neg

namespace ATS

/-! ## Python string primitives -/

/-- Whitespace test matching the ASCII whitespace accepted by Python
`str.strip` / `str.split` on the inputs exercised here. -/
def pyIsSpace (c : Char) : Bool :=
  c = ' ' || c = '\t' || c = '\n' || c = '\r' || c = '\x0b' || c = '\x0c'

/-- Strip leading and trailing whitespace from a character list. -/
def stripChars (l : List Char) : List Char :=
  ((l.dropWhile pyIsSpace).reverse.dropWhile pyIsSpace).reverse

/-- Python `str.strip()`. -/
def pyStrip (s : String) : String :=
  ⟨stripChars s.data⟩

/-- Python `str.lower()` (ASCII; all inputs exercised here are ASCII). -/
def pyLower (s : String) : String :=
  ⟨s.data.map Char.toLower⟩

/-- Split a character list at every occurrence of a separator character,
keeping empty pieces: Python `str.split(sep)`. -/
def splitOnChar (sep : Char) : List Char → List (List Char)
  | [] => [[]]
  | c :: cs =>
    match splitOnChar sep cs with
    | [] => if c = sep then [[], []] else [[c]]
    | r :: rs => if c = sep then [] :: r :: rs else (c :: r) :: rs

/-- Python `text.split(sep)` returning strings. -/
def pySplitOn (sep : Char) (s : String) : List String :=
  (splitOnChar sep s.data).map (fun l => ⟨l⟩)

/-- Split a character list at every whitespace character. -/
def splitAtWs : List Char → List (List Char)
  | [] => [[]]
  | c :: cs =>
    match splitAtWs cs with
    | [] => if pyIsSpace c then [[], []] else [[c]]
    | r :: rs => if pyIsSpace c then [] :: r :: rs else (c :: r) :: rs

/-- Python `str.split()` with no argument: split on whitespace runs,
discarding empty fields. -/
def pyWords (s : String) : List String :=
  ((splitAtWs s.data).filter (fun l => l ≠ [])).map (fun l => ⟨l⟩)

/-- Test whether a character list occurs contiguously inside another. -/
def listInfix (needle : List Char) : List Char → Bool
  | [] => needle.isEmpty
  | c :: cs => needle.isPrefixOf (c :: cs) || listInfix needle cs

/-- Python substring test `needle in hay`. -/
def pyContains (hay needle : String) : Bool :=
  listInfix needle.data hay.data

/-- Count non-overlapping occurrences of a nonempty needle, scanning left to
right; the fuel argument is instantiated with the length of the text, which
suffices because every step consumes at least one character. -/
def countOccAux (needle : List Char) : Nat → List Char → Nat
  | _, [] => 0
  | 0, _ => 0
  | fuel + 1, c :: cs =>
    if needle.isPrefixOf (c :: cs) then
      1 + countOccAux needle fuel ((c :: cs).drop needle.length)
    else
      countOccAux needle fuel cs

/-- Python `str.count(sub)` for a nonempty `sub` (the empty-needle case,
which Python counts as `len + 1`, is handled separately). -/
def pyCount (hay needle : String) : Nat :=
  if needle.data = [] then hay.data.length + 1
  else countOccAux needle.data hay.data.length hay.data

/-- Python `int(q)` on a float value: truncation toward zero, modelled on
exact rationals. -/
def pyInt (q : ℚ) : ℤ :=
  if q < 0 then -Rat.floor (-q) else Rat.floor q

/-- Decidable equality for the exception monad used by the fallible
embeddings. -/
instance instDecidableEqExcept {ε α : Type} [DecidableEq ε] [DecidableEq α] :
    DecidableEq (Except ε α) := fun a b =>
  match a, b with
  | .ok x, .ok y =>
    if h : x = y then .isTrue (h ▸ rfl) else .isFalse (fun hh => h (Except.ok.inj hh))
  | .ok _, .error _ => .isFalse (fun hh => Except.noConfusion hh)
  | .error _, .ok _ => .isFalse (fun hh => Except.noConfusion hh)
  | .error x, .error y =>
    if h : x = y then .isTrue (h ▸ rfl) else .isFalse (fun hh => h (Except.error.inj hh))

/-! ## Data model (api/dto.py and the service dataclasses) -/

/-- ParseMeta from api/dto.py. -/
structure ParseMeta where
  filetype : String
  has_columns : Bool
  has_tables : Bool
  extractability_score : ℚ
  ocr_used : Bool
deriving Repr, DecidableEq

/-- Evidence from api/dto.py. -/
structure Evidence where
  skill : String
  «section» : String
  quote : String
  similarity : ℚ
deriving Repr, DecidableEq

/-- MissingSkills from api/dto.py. -/
structure MissingSkills where
  required : List String
  preferred : List String
deriving Repr, DecidableEq

/-- Suggestion from api/dto.py. -/
structure Suggestion where
  before : String
  after : String
  rationale : String
deriving Repr, DecidableEq

/-- ATSWarnings from api/dto.py. -/
structure ATSWarnings where
  warnings : List String
  passes : List String
deriving Repr, DecidableEq

/-- Score from api/dto.py. -/
structure Score where
  overall : ℤ
  coverage : ℤ
  experience : ℤ
  education : ℤ
deriving Repr, DecidableEq

/-- ExtractedSkill from services/extract.py. -/
structure ExtractedSkill where
  name : String
  canonical_name : String
  confidence : ℚ
  «section» : String
  context : String
deriving Repr, DecidableEq

/-- ExtractedExperience from services/extract.py. -/
structure ExtractedExperience where
  title : String
  company : String
  start_date : Option String
  end_date : Option String
  duration_months : Option ℤ
  description : String
  «section» : String
deriving Repr, DecidableEq

/-- ExtractedEducation from services/extract.py. -/
structure ExtractedEducation where
  degree : String
  institution : String
  field : Option String
  graduation_date : Option String
  gpa : Option String
  «section» : String
deriving Repr, DecidableEq

/-- ExtractedEntities from services/extract.py. -/
structure ExtractedEntities where
  skills : List ExtractedSkill
  experience : List ExtractedExperience
  education : List ExtractedEducation
  total_experience_months : ℤ
  most_recent_title : Option String
deriving Repr, DecidableEq

/-- JDRequirement from services/jd.py. -/
structure JDRequirement where
  skill : String
  is_required : Bool
  context : String
  confidence : ℚ
deriving Repr, DecidableEq

/-- JDRequirements from services/jd.py. -/
structure JDRequirements where
  required_skills : List JDRequirement
  preferred_skills : List JDRequirement
  experience_years : ℤ
  education_level : String
  title : String
  all_skills : List String
deriving Repr, DecidableEq

/-- SkillMatch from services/match.py. -/
structure SkillMatch where
  jd_skill : String
  resume_skill : Option ExtractedSkill
  similarity : ℚ
  is_required : Bool
  evidence : Option Evidence
deriving Repr, DecidableEq

/-- MatchResults from services/match.py. -/
structure MatchResults where
  required_matches : List SkillMatch
  preferred_matches : List SkillMatch
  missing : MissingSkills
  weakly_supported : List String
  suggestions : List Suggestion
  evidence : List Evidence
deriving Repr, DecidableEq

/-! ## Configuration (core/config.py) -/

/-- Scoring configuration dictionary shape used by the services. -/
structure ScoringConfig where
  required_hit : ℚ
  preferred_hit : ℚ
  weak_support : ℚ
  coverage_w : ℚ
  experience_w : ℚ
  education_w : ℚ
  section_weights : List (String × ℚ)
  recency_years_boost : ℤ
deriving Repr, DecidableEq

/-- Embeds `get_scoring_config` from core/config.py in its default branch:
the repository ships no `config/scoring.yaml`, so the hardcoded default
dictionary is returned. -/
def get_scoring_config : ScoringConfig :=
  ⟨75/100, 75/100, 65/100,
   6/10, 3/10, 1/10,
   [("experience", 1), ("projects", 8/10), ("skills", 4/10)],
   2⟩

/-! ## Scorer (services/score.py) -/

/-- Number of matches in a list that carry evidence (the generator
expressions summing `1 for match ... if match.evidence is not None`). -/
def countWithEvidence (l : List SkillMatch) : Nat :=
  (l.filter (fun m => m.evidence.isSome)).length

/-- Embeds `calculate_coverage_score` from services/score.py. -/
def calculate_coverage_score («matches» : MatchResults) (jd_requirements : JDRequirements) : ℤ :=
  let total_required := jd_requirements.required_skills.length
  let total_preferred := jd_requirements.preferred_skills.length
  if total_required = 0 ∧ total_preferred = 0 then
    80
  else
    let required_hits := countWithEvidence «matches».required_matches
    let preferred_hits := countWithEvidence «matches».preferred_matches
    let required_score : ℚ :=
      if total_required > 0 then
        let base := ((required_hits : ℚ) / (total_required : ℚ)) * 100
        let missing_required := total_required - required_hits
        if missing_required > 0 then max 0 (base - (missing_required : ℚ) * 15) else base
      else 90
    let preferred_score : ℚ :=
      if total_preferred > 0 then
        let base := ((preferred_hits : ℚ) / (total_preferred : ℚ)) * 100
        let missing_preferred := total_preferred - preferred_hits
        if missing_preferred > 0 then max 0 (base - (missing_preferred : ℚ) * 5) else base
      else 80
    let coverage_score : ℚ :=
      if total_required > 0 ∧ total_preferred > 0 then
        required_score * (8/10) + preferred_score * (2/10)
      else if total_required > 0 then required_score
      else preferred_score * (8/10)
    let total_skills := total_required + total_preferred
    let total_hits := required_hits + preferred_hits
    let hit_rate : ℚ := (total_hits : ℚ) / (max total_skills 1 : ℚ)
    let coverage_score :=
      if hit_rate < 3/10 then coverage_score * (7/10)
      else if hit_rate < 5/10 then coverage_score * (85/100)
      else coverage_score
    min 100 (max 0 (pyInt coverage_score))

/-- Embeds `calculate_overall_score` from services/score.py with the default
weights from `get_scoring_config`. -/
def calculate_overall_score (coverage_score experience_score education_score : ℤ) : ℤ :=
  let w := get_scoring_config
  let overall : ℚ :=
    (coverage_score : ℚ) * w.coverage_w +
    (experience_score : ℚ) * w.experience_w +
    (education_score : ℚ) * w.education_w
  min 100 (max 0 (pyInt overall))

/-! ## File type detection (services/parse.py) -/

/-- Error taxonomy from core/errors.py (the subclasses of
ATSAnalyzerException raised by the parsing pipeline). -/
inductive ATSError where
  | fileProcessingError (msg : String)
  | textExtractionError (msg : String)
  | ocrError (msg : String)
deriving Repr, DecidableEq

/-- Index of the last occurrence of a character, Python `str.rfind`
(returning `none` for -1). -/
def lastIdxOf (c : Char) (l : List Char) : Option Nat :=
  ((List.range l.length).filter (fun i => l.getD i ' ' = c)).getLast?

/-- Final path component, Python `pathlib.Path(filename).name` for the
POSIX filenames exercised here. -/
def pathName (filename : String) : String :=
  ((pySplitOn '/' filename).filter (fun s => s ≠ "")).getLastD ""

/-- Python `pathlib.Path(filename).suffix`: the part of the name from its
last dot, empty when the dot is absent, leading or trailing. -/
def pathSuffix (filename : String) : String :=
  let name := (pathName filename).data
  match lastIdxOf '.' name with
  | some i => if 0 < i ∧ i < name.length - 1 then ⟨name.drop i⟩ else ""
  | none => ""

/-- Embeds `detect_filetype` from services/parse.py; bytes are modelled as
lists of byte values.  An empty declared content type is falsy in Python and
skips the content-type fallback, hence the explicit empty test. -/
def detect_filetype (content : List Nat) (filename : String) (content_type : Option String) :
    Except ATSError String :=
  if [0x25, 0x50, 0x44, 0x46].isPrefixOf content then .ok "pdf"
  else if [0x50, 0x4b, 0x03, 0x04].isPrefixOf content then .ok "docx"
  else if [0x89, 0x50, 0x4e, 0x47].isPrefixOf content ||
          [0xff, 0xd8, 0xff].isPrefixOf content ||
          [0x47, 0x49, 0x46, 0x38].isPrefixOf content then .ok "image"
  else
    let ext := pyLower (pathSuffix filename)
    if filename ≠ "" ∧ ext = ".pdf" then .ok "pdf"
    else if filename ≠ "" ∧ (ext = ".docx" ∨ ext = ".doc") then .ok "docx"
    else if filename ≠ "" ∧ (ext = ".png" ∨ ext = ".jpg" ∨ ext = ".jpeg" ∨
                             ext = ".gif" ∨ ext = ".bmp" ∨ ext = ".tiff") then .ok "image"
    else
      match content_type with
      | some ct =>
        if ct = "" then .error (.fileProcessingError ("Unsupported file type: " ++ filename))
        else if pyContains ct "pdf" then .ok "pdf"
        else if pyContains ct "wordprocessingml" || pyContains ct "msword" then .ok "docx"
        else if pyContains ct "image" then .ok "image"
        else .error (.fileProcessingError ("Unsupported file type: " ++ filename))
      | none => .error (.fileProcessingError ("Unsupported file type: " ++ filename))

/-- Declared content type that matches none of the checked substrings (or is
absent or empty), so that the content-type fallback cannot classify. -/
def noContentTypeMatch (ct : Option String) : Bool :=
  match ct with
  | none => true
  | some s =>
    s = "" || (!pyContains s "pdf" && !pyContains s "wordprocessingml" &&
               !pyContains s "msword" && !pyContains s "image")

/-! ## Sectionizer (services/sectionizer.py) -/

/-- Decorative characters stripped from candidate header lines. -/
def isDecorative (c : Char) : Bool :=
  c = '=' || c = '-' || c = '_' || c = '*' || c = '•'

/-- Match a sequence of literal lowercase words separated by whitespace runs
at the head of a character list (the `\s+` of the header regexes; the words
contain no whitespace, so maximal munch is exact). -/
def matchSeqAt : List String → List Char → Bool
  | [], _ => true
  | [w], l => w.data.isPrefixOf l
  | w :: rest, l =>
    w.data.isPrefixOf l &&
    (let after := l.drop w.data.length
     match after with
     | [] => false
     | c :: _ => pyIsSpace c && matchSeqAt rest (after.dropWhile pyIsSpace))

/-- Regex search for a word-sequence pattern anywhere in a character list. -/
def patSearchAux (ws : List String) : List Char → Bool
  | [] => matchSeqAt ws []
  | c :: cs => matchSeqAt ws (c :: cs) || patSearchAux ws cs

/-- Case-insensitive `re.search` of a word-sequence header pattern in a
line. -/
def patSearch (ws : List String) (line : String) : Bool :=
  patSearchAux ws (pyLower line).data

/-- SECTION_PATTERNS from services/sectionizer.py, in source dictionary
order.  A regex alternative of the form `Xs?` occurs in a line exactly when
the stem `X` does, so the optional plural markers are dropped in this word
representation; `\s+` separates the words of multi-word patterns. -/
def sectionPatterns : List (String × List (List String)) :=
  [("summary", [["professional", "summary"], ["career", "summary"],
                ["executive", "summary"], ["profile"], ["summary"],
                ["overview"], ["objective"], ["career", "objective"]]),
   ("experience", [["work", "experience"], ["professional", "experience"],
                   ["employment", "history"], ["career", "history"],
                   ["experience"], ["employment"], ["work", "history"]]),
   ("education", [["education"], ["educational", "background"],
                  ["academic", "background"], ["qualifications"], ["degree"]]),
   ("skills", [["technical", "skills"], ["core", "competencies"],
               ["key", "skills"], ["skills"], ["competencies"],
               ["expertise"], ["technologies"], ["technical", "expertise"]]),
   ("projects", [["project"], ["key", "project"], ["notable", "project"],
                 ["selected", "project"], ["personal", "project"],
                 ["portfolio"]]),
   ("certifications", [["certification"], ["certificate"],
                       ["professional", "certification"], ["license"]]),
   ("awards", [["award"], ["honor"], ["achievement"], ["recognition"],
               ["accomplishment"]]),
   ("languages", [["language"], ["language", "skills"],
                  ["linguistic", "skills"]]),
   ("publications", [["publication"], ["paper"], ["research"], ["article"]]),
   ("references", [["reference"], ["recommendation"]])]

/-- First section whose pattern list matches the cleaned line, in
SECTION_PATTERNS order (the for/else/break construct of the source). -/
def firstMatchingSection (clean_line : String) : Option String :=
  (sectionPatterns.find? (fun p => p.2.any (fun ws => patSearch ws clean_line))).map (fun p => p.1)

/-- Character offset of line `i`: the lengths of the preceding lines plus
one newline each. -/
def charPos (lines : List String) (i : Nat) : Nat :=
  (((lines.take i).map (fun l => l.data.length + 1))).sum

/-- Insert an element after every stored element whose key is not larger,
keeping arrival order among equal keys. -/
def insertByKey (key : α → Nat) (a : α) : List α → List α
  | [] => [a]
  | b :: rest => if key b ≤ key a then b :: insertByKey key a rest else a :: b :: rest

/-- Stable sort by a natural-number key (the semantics of Python
`list.sort(key=...)`), as a structurally recursive insertion sort. -/
def stableSortByKey (key : α → Nat) (l : List α) : List α :=
  l.foldl (fun acc a => insertByKey key a acc) []

/-- Embeds `find_section_boundaries` from services/sectionizer.py.  The
boundaries are produced in increasing line order and then stably sorted by
line number exactly as the source does. -/
def find_section_boundaries (text : String) : List (String × Nat × Nat) :=
  let lines := pySplitOn '\n' text
  let raw := (List.range lines.length).filterMap (fun i =>
    let line_stripped := pyStrip (lines.getD i "")
    if line_stripped.data = [] then none
    else if line_stripped.data.length > 50 then none
    else
      let clean_line := pyStrip ⟨line_stripped.data.filter (fun c => !isDecorative c)⟩
      if clean_line.data = [] then none
      else (firstMatchingSection clean_line).map (fun name => (name, i, charPos lines i)))
  stableSortByKey (fun a => a.2.1) raw

/-- Embeds `extract_section_content` from services/sectionizer.py. -/
def extract_section_content (text : String) (start_pos end_pos : Nat) : String :=
  let content := stripChars ((text.data.drop start_pos).take (end_pos - start_pos))
  let lines := (splitOnChar '\n' content).drop 1
  let cleaned := lines.filterMap (fun l =>
    let ls := stripChars l
    if ls ≠ [] ∧ ¬ (ls.all (fun c => isDecorative c || pyIsSpace c)) then some ls else none)
  ⟨(cleaned.intersperse ['\n']).flatten⟩

/-- Ordered-dictionary lookup on an insertion-ordered association list. -/
def dictGet? (d : List (String × String)) (k : String) : Option String :=
  match d with
  | [] => none
  | (k2, v) :: rest => if k2 = k then some v else dictGet? rest k

/-- Ordered-dictionary assignment: update in place when the key exists,
append otherwise (Python `d[k] = v`). -/
def dictSet (d : List (String × String)) (k v : String) : List (String × String) :=
  match d with
  | [] => [(k, v)]
  | (k2, v2) :: rest => if k2 = k then (k, v) :: rest else (k2, v2) :: dictSet rest k v

/-- Pair every list element with its successor, for the lookahead to the
next boundary. -/
def withNext : List α → List (α × Option α)
  | [] => []
  | [a] => [(a, none)]
  | a :: b :: rest => (a, some b) :: withNext (b :: rest)

/-- Content-accumulation step of `sectionize_text`: repeated headers of the
same canonical name are joined by a blank line. -/
def addSectionContent (text : String) (d : List (String × String))
    (p : (String × Nat × Nat) × Option (String × Nat × Nat)) : List (String × String) :=
  match p with
  | ((section_name, _, char_pos), next?) =>
    let end_pos := match next? with
      | some (_, _, np) => np
      | none => text.data.length
    let content := extract_section_content text char_pos end_pos
    if content.data ≠ [] then
      match dictGet? d section_name with
      | some old => dictSet d section_name (old ++ "\n\n" ++ content)
      | none => dictSet d section_name content
    else d

/-- Final pass of `sectionize_text`: the four core section names are added
with empty content when absent. -/
def ensureCoreSections (d : List (String × String)) : List (String × String) :=
  ["summary", "experience", "education", "skills"].foldl
    (fun d s => if (dictGet? d s).isSome then d else d ++ [(s, "")]) d

/-- Embeds `sectionize_text` from services/sectionizer.py; the Python dict
is modelled as an insertion-ordered association list. -/
def sectionize_text (text : String) : List (String × String) :=
  if pyStrip text = "" then []
  else
    let boundaries := find_section_boundaries text
    if boundaries = [] then [("summary", pyStrip text)]
    else
      let sections := (withNext boundaries).foldl (addSectionContent text) []
      let first_section_pos := (boundaries.headD ("", 0, 0)).2.2
      let sections :=
        if first_section_pos > 0 then
          let preamble := pyStrip ⟨text.data.take first_section_pos⟩
          if preamble ≠ "" ∧ preamble.data.length > 50 then
            dictSet sections "summary" preamble
          else sections
        else sections
      ensureCoreSections sections

/-! ## JDRequirementParser (services/jd.py) -/

/-- The five internal steps of `parse_job_description`, each with an
explicit exception channel: the source wraps them in a blanket
try/except, so the embedding makes each step a fallible function. -/
structure JDSteps where
  extract_job_title : String → Except String String
  extract_skills_from_jd : String → Except String (List String)
  classify_skill_requirements : String → List String → Except String (List JDRequirement)
  extract_experience_requirements : String → Except String ℤ
  extract_education_requirements : String → Except String String

/-- Body of the try block of `parse_job_description`: the steps run in
source order and the first raised exception aborts the block. -/
def runJDSteps (steps : JDSteps) (jd_text : String) : Except String JDRequirements := do
  let title ← steps.extract_job_title jd_text
  let all_skills ← steps.extract_skills_from_jd jd_text
  let requirements ← steps.classify_skill_requirements jd_text all_skills
  let required_skills := requirements.filter (fun req => req.is_required)
  let preferred_skills := requirements.filter (fun req => !req.is_required)
  let experience_years ← steps.extract_experience_requirements jd_text
  let education_level ← steps.extract_education_requirements jd_text
  pure (JDRequirements.mk required_skills preferred_skills experience_years
    education_level title all_skills)

/-- Embeds `parse_job_description` from services/jd.py: empty or
whitespace-only input short-circuits to the all-empty requirements object,
and any exception in the try block is swallowed and replaced by the same
all-empty object. -/
def parse_job_description (steps : JDSteps) (jd_text : String) : JDRequirements :=
  if pyStrip jd_text = "" then
    JDRequirements.mk [] [] 0 "unspecified" "Unknown Position" []
  else
    match runJDSteps steps jd_text with
    | .ok r => r
    | .error _ => JDRequirements.mk [] [] 0 "unspecified" "Unknown Position" []

/-! ## SkillMatcher (services/match.py) -/

/-- Indel (insert/delete only) edit distance with explicit fuel, the
distance underlying rapidfuzz `fuzz.ratio`; `indelDist` supplies enough
fuel for the recursion to finish, and a fuel-indexed definition keeps the
function structurally recursive so concrete inputs evaluate in the
kernel. -/
def indelF : Nat → List Char → List Char → Nat
  | 0, a, b => a.length + b.length
  | _ + 1, [], b => b.length
  | _ + 1, a, [] => a.length
  | f + 1, x :: xs, y :: ys =>
    if x = y then indelF f xs ys
    else 1 + min (indelF f xs (y :: ys)) (indelF f (x :: xs) ys)

/-- Indel edit distance between two character lists. -/
def indelDist (a b : List Char) : Nat := indelF (a.length + b.length) a b

/-- Models rapidfuzz `fuzz.ratio` (an external library function): the
normalized indel similarity scaled to 0..100, with two empty strings
scoring 100. -/
def fuzzRatio (s1 s2 : String) : ℚ :=
  let a := s1.data
  let b := s2.data
  if a.length + b.length = 0 then 100
  else 100 * ((a.length + b.length - indelDist a b : ℕ) : ℚ) / ((a.length + b.length : ℕ) : ℚ)

/-- The sentence-embedding model treated as a fixed deterministic function,
per the spec: `encode` maps a string to its vector and `vecNorm` stands for
`numpy.linalg.norm` (kept abstract because the Euclidean norm leaves ℚ);
the cosine denominator multiplies the two norms exactly as the source
does. -/
structure EmbeddingModel where
  encode : String → List ℚ
  vecNorm : List ℚ → ℚ

/-- Dot product of two rational vectors (`numpy.dot` on equal-length
vectors). -/
def dotQ : List ℚ → List ℚ → ℚ
  | [], _ => 0
  | _, [] => 0
  | x :: xs, y :: ys => x * y + dotQ xs ys

/-- Cosine similarity of the embeddings of two strings, as computed at
match.py lines 119-124. -/
def cosineSim (m : EmbeddingModel) (a b : String) : ℚ :=
  dotQ (m.encode a) (m.encode b) / (m.vecNorm (m.encode a) * m.vecNorm (m.encode b))

/-- SkillMatcher instance state: the lazily loaded model (`none` models the
load failure caught at match.py line 135, which degrades to fuzzy-only) and
the scoring configuration. -/
structure SkillMatcherState where
  model : Option EmbeddingModel
  config : ScoringConfig

/-- The abbreviation/synonym table from `calculate_similarity`. -/
def synonymsTable : List (String × String) :=
  [("js", "javascript"), ("ts", "typescript"), ("py", "python"),
   ("ai", "artificial intelligence"), ("ml", "machine learning"),
   ("dl", "deep learning"), ("nlp", "natural language processing"),
   ("cv", "computer vision"), ("db", "database"),
   ("sql", "structured query language"), ("nosql", "no sql"),
   ("api", "application programming interface"),
   ("rest", "representational state transfer"),
   ("ui", "user interface"), ("ux", "user experience"),
   ("aws", "amazon web services"), ("gcp", "google cloud platform"),
   ("k8s", "kubernetes"), ("docker", "containerization"),
   ("css3", "css"), ("html5", "html"), ("node", "node.js"),
   ("nodejs", "node.js"), ("reactjs", "react"), ("react.js", "react"),
   ("vue.js", "vue"), ("vuejs", "vue")]

/-- Python `synonyms.get(key, key)`. -/
def synGet (s : String) : String :=
  match synonymsTable.lookup s with
  | some v => v
  | none => s

/-- Embeds `SkillMatcher.calculate_similarity` from services/match.py. -/
def calculate_similarity (M : SkillMatcherState) (skill1 skill2 : String) : ℚ :=
  let skill1_clean := pyStrip (pyLower skill1)
  let skill2_clean := pyStrip (pyLower skill2)
  if skill1_clean = skill2_clean then 1
  else
    let skill1_norm := synGet skill1_clean
    let skill2_norm := synGet skill2_clean
    if skill1_norm = skill2_norm then 98/100
    else
      let fuzzy_ratio := fuzzRatio skill1_norm skill2_norm / 100
      if fuzzy_ratio < 7/10 then 0
      else if fuzzy_ratio ≥ 95/100 then fuzzy_ratio
      else
        match M.model with
        | some m =>
          let semantic_sim := cosineSim m skill1_norm skill2_norm
          if semantic_sim ≥ 85/100 ∧ fuzzy_ratio ≥ 85/100 then
            min (9/10) (max fuzzy_ratio semantic_sim)
          else if semantic_sim ≥ 8/10 ∧ fuzzy_ratio ≥ 9/10 then
            min (85/100) semantic_sim
          else 0
        | none => if fuzzy_ratio ≥ 9/10 then fuzzy_ratio else 0

/-- Embeds `SkillMatcher.find_best_match` from services/match.py.  Python
word sets are modelled as deduplicated word lists; the word-overlap division
yields 0 in ℚ when both word sets are empty (a case the source would fault
on and that no exercised input reaches). -/
def find_best_match (M : SkillMatcherState) (jd_skill : String)
    (resume_skills : List ExtractedSkill) : Option ExtractedSkill × ℚ :=
  let jd_skill_words := (pyWords (pyLower jd_skill)).dedup
  resume_skills.foldl (fun best resume_skill =>
    let score1 := calculate_similarity M jd_skill resume_skill.name
    let score2 := calculate_similarity M jd_skill resume_skill.canonical_name
    let resume_words := (pyWords (pyLower resume_skill.name)).dedup
    let inter := (jd_skill_words.filter (fun w => resume_words.contains w)).length
    let uni := jd_skill_words.length +
               (resume_words.filter (fun w => !jd_skill_words.contains w)).length
    let word_overlap : ℚ := (inter : ℚ) / (uni : ℚ)
    let direct_score := max score1 score2
    let direct_score :=
      if word_overlap ≥ 1/2 ∧ direct_score ≥ 6/10 then
        min (9/10) (direct_score + word_overlap * (1/10))
      else direct_score
    let direct_score :=
      if (pyWords resume_skill.name).length = 1 ∧ (pyWords jd_skill).length > 1 then
        direct_score * (9/10)
      else direct_score
    if direct_score > best.2 then (some resume_skill, direct_score) else best)
    (none, 0)

/-- Evidence gating shared by the required and preferred loops of
`match_skills` (identical source blocks up to the similarity threshold and
the word-overlap floor). -/
def evidenceFor (threshold overlap_floor : ℚ) (jd_req : JDRequirement)
    (best_skill : Option ExtractedSkill) (similarity : ℚ) : Option Evidence :=
  match best_skill with
  | none => none
  | some best =>
    if similarity ≥ threshold then
      let context_text := pyLower best.context
      let skill_name := pyLower jd_req.skill
      let skill_mentioned :=
        pyContains context_text skill_name ||
        (pyWords skill_name).any (fun w => w.data.length > 2 && pyContains context_text w)
      let context_words := (pyWords context_text).dedup
      let skill_words := (pyWords skill_name).dedup
      let word_overlap : ℚ :=
        if skill_words ≠ [] then
          ((skill_words.filter (fun w => context_words.contains w)).length : ℚ) /
            (skill_words.length : ℚ)
        else 0
      if skill_mentioned ∧ word_overlap ≥ overlap_floor then
        some (Evidence.mk jd_req.skill best.«section» best.context similarity)
      else none
    else none

/-- Embeds `SkillMatcher._generate_suggestions` from services/match.py. -/
def generate_suggestions (missing_required weakly_supported : List String)
    (resume_entities : ExtractedEntities) : List Suggestion :=
  (missing_required.take 3).map (fun skill =>
    Suggestion.mk "[Skills section]"
      ("Add \x27" ++ skill ++ "\x27 to your skills section with specific examples")
      ("\x27" ++ skill ++ "\x27 is a required skill that\x27s missing from your resume")) ++
  (weakly_supported.take 2).map (fun skill =>
    Suggestion.mk "[Experience descriptions]"
      ("Include specific examples of using " ++ skill ++ " with measurable results")
      ("\x27" ++ skill ++ "\x27 appears weakly supported - add concrete examples")) ++
  (if resume_entities.experience ≠ [] then
    (resume_entities.experience.take 1).filterMap (fun exp =>
      if !(exp.description.data.any Char.isDigit) then
        some (Suggestion.mk (⟨exp.description.data.take 50⟩ ++ "...")
          "Add specific metrics and numbers to quantify your impact"
          "ATS systems favor quantified achievements with concrete numbers")
      else none)
   else [])

/-- Embeds `SkillMatcher.match_skills` from services/match.py, including
the missing/weakly-supported classification at lines 303-311. -/
def match_skills (M : SkillMatcherState) (jd_requirements : JDRequirements)
    (resume_entities : ExtractedEntities) : MatchResults :=
  let required_matches := jd_requirements.required_skills.map (fun jd_req =>
    let bm := find_best_match M jd_req.skill resume_entities.skills
    SkillMatch.mk jd_req.skill bm.1 bm.2 true
      (evidenceFor M.config.required_hit (1/2) jd_req bm.1 bm.2))
  let preferred_matches := jd_requirements.preferred_skills.map (fun jd_req =>
    let bm := find_best_match M jd_req.skill resume_entities.skills
    SkillMatch.mk jd_req.skill bm.1 bm.2 false
      (evidenceFor M.config.preferred_hit (2/5) jd_req bm.1 bm.2))
  let evidence := (required_matches ++ preferred_matches).filterMap (fun m => m.evidence)
  let missing_required := required_matches.filterMap (fun m =>
    if m.similarity < M.config.required_hit then some m.jd_skill else none)
  let weakly_supported := required_matches.filterMap (fun m =>
    if ¬ m.similarity < M.config.required_hit ∧ m.similarity < M.config.weak_support then
      some m.jd_skill
    else none)
  let missing_preferred := preferred_matches.filterMap (fun m =>
    if m.similarity < M.config.preferred_hit then some m.jd_skill else none)
  MatchResults.mk required_matches preferred_matches
    (MissingSkills.mk missing_required missing_preferred) weakly_supported
    (generate_suggestions missing_required weakly_supported resume_entities) evidence

/-! ## Document extraction (services/parse.py) -/

/-- Python `sep.join(parts)`. -/
def joinSep (sep : String) : List String → String
  | [] => ""
  | p :: rest => rest.foldl (fun acc q => acc ++ sep ++ q) p

/-- Outcome of running the OCR engine on image bytes: the recognized text,
a raised `pytesseract.TesseractError`, or any other fault (such as a
failing `Image.open`). -/
inductive ImageOcrOutcome where
  | text (s : String)
  | tesseractError (msg : String)
  | otherError (msg : String)
deriving Repr, DecidableEq

/-- Embeds `extract_text_from_image` from services/parse.py.  The
`raise OCRError("No text found in image")` sits inside the try block whose
handlers are `except pytesseract.TesseractError` and `except Exception`;
an OCRError is not a TesseractError, so the blanket handler catches the
raise and re-wraps it as a TextExtractionError whose message embeds the
original one. -/
def extract_text_from_image (ocr : ImageOcrOutcome) : Except ATSError (String × Bool × ℚ) :=
  match ocr with
  | .tesseractError m => .error (.ocrError ("Tesseract OCR failed: " ++ m))
  | .otherError m => .error (.textExtractionError ("Failed to extract text from image: " ++ m))
  | .text ocr_text =>
    if pyStrip ocr_text = "" then
      .error (.textExtractionError "Failed to extract text from image: No text found in image")
    else
      let extractability_score : ℚ := if (pyStrip ocr_text).data.length > 50 then 8/10 else 5/10
      .ok (ocr_text, true, extractability_score)

/-- Discriminator for the OCRError condition of the error taxonomy. -/
def isOcrError : Except ATSError α → Bool
  | .error (.ocrError _) => true
  | _ => false

/-- One line of a PyMuPDF text block: its bounding-box left x
coordinate. -/
structure PdfLine where
  x : ℚ
deriving Repr, DecidableEq

/-- One PyMuPDF block: the bounding-box top y coordinate, and the line
list when the block is a text block (`"lines" in block`). -/
structure PdfBlock where
  y : ℚ
  lines : Option (List PdfLine)
deriving Repr, DecidableEq

/-- One PDF page as PyMuPDF reports it: the natively extracted text, the
OCR result for the rasterized page (`none` when the OCR attempt raised and
was logged and skipped), and the layout blocks. -/
structure PdfPage where
  text : String
  ocrText : Option String
  blocks : List PdfBlock
deriving Repr, DecidableEq

/-- Python `round` on a float value: round half to even, modelled on exact
rationals. -/
def pyRound (q : ℚ) : ℤ :=
  let f := Rat.floor q
  let r := q - (f : ℚ)
  if r < 1/2 then f
  else if r > 1/2 then f + 1
  else if f % 2 = 0 then f else f + 1

/-- Multi-column test of one page (parse.py lines 105-114): with more than
one block, cluster the line x coordinates by `round(x / 50)`; more than two
distinct clusters means columns. -/
def pageColumnFlag (blocks : List PdfBlock) : Bool :=
  if blocks.length > 1 then
    let x_positions := ((blocks.filterMap (fun b => b.lines)).flatten).map (fun l => l.x)
    ((x_positions.map (fun x => pyRound (x / 50))).dedup).length > 2
  else false

/-- Table test of one page (parse.py lines 117-120): with more than three
blocks, cluster the text-block y coordinates by `round(y / 10)`; fewer
distinct clusters than 0.7 of the positions means a table. -/
def pageTableFlag (blocks : List PdfBlock) : Bool :=
  if blocks.length > 3 then
    let y_positions := blocks.filterMap (fun b => b.lines.map (fun _ => b.y))
    decide ((((y_positions.map (fun y => pyRound (y / 10))).dedup).length : ℚ) <
      (y_positions.length : ℚ) * (7/10))
  else false

/-- Layout flags accumulated over all pages inside
`extract_text_from_pdf`; the source computes these and then discards them,
returning only text, OCR flag and extractability. -/
def pdfLayoutFlags (pages : List PdfPage) : Bool × Bool :=
  pages.foldl (fun acc page =>
    (acc.1 || pageColumnFlag page.blocks, acc.2 || pageTableFlag page.blocks))
    (false, false)

/-- Embeds the text-assembly part of `extract_text_from_pdf` from
services/parse.py: per page, native text when its strip is nonempty, else
the OCR text when available and nonempty (setting the OCR flag); the
expected character count is at least 100 per page. -/
def extract_text_from_pdf (pages : List PdfPage) : String × Bool × ℚ :=
  let st := pages.foldl (fun st page =>
    match st with
    | (parts, ocr_used, total_chars, extracted_chars) =>
      let next :=
        if pyStrip page.text ≠ "" then
          (parts ++ [page.text], ocr_used, extracted_chars + page.text.data.length)
        else
          match page.ocrText with
          | some t =>
            if pyStrip t ≠ "" then (parts ++ [t], true, extracted_chars + t.data.length)
            else (parts, ocr_used, extracted_chars)
          | none => (parts, ocr_used, extracted_chars)
      (next.1, next.2.1, total_chars + max page.text.data.length 100, next.2.2))
    (([] : List String), false, 0, 0)
  match st with
  | (parts, ocr_used, total_chars, extracted_chars) =>
    (joinSep "\n\n" parts, ocr_used,
     min ((extracted_chars : ℚ) / (max total_chars 1 : ℚ)) 1)

/-- Result of opening the PDF: the page list, or the message of the fault
raised by the PDF library, which the source wraps as TextExtractionError. -/
def extract_text_from_pdf_result (pdf : Except String (List PdfPage)) :
    Except ATSError (String × Bool × ℚ) :=
  match pdf with
  | .error m => .error (.textExtractionError ("Failed to extract text from PDF: " ++ m))
  | .ok pages => .ok (extract_text_from_pdf pages)

/-- A DOCX document as python-docx reports it: paragraph texts and, per
table, rows of cell texts. -/
structure DocxFile where
  paragraphs : List String
  tables : List (List (List String))
deriving Repr, DecidableEq

/-- Embeds `extract_text_from_docx` from services/parse.py. -/
def extract_text_from_docx (docx : Except String DocxFile) :
    Except ATSError (String × Bool × ℚ) :=
  match docx with
  | .error m => .error (.textExtractionError ("Failed to extract text from DOCX: " ++ m))
  | .ok d =>
    let paras := d.paragraphs.filter (fun p => pyStrip p ≠ "")
    let rows := d.tables.flatten.filterMap (fun row =>
      let row_text := (row.filter (fun c => pyStrip c ≠ "")).map pyStrip
      if row_text ≠ [] then some (joinSep " | " row_text) else none)
    .ok (joinSep "\n" (paras ++ rows), false, 1)

/-- ParsedDocument from services/parse.py. -/
structure ParsedDocument where
  text : String
  meta : ParseMeta
deriving Repr, DecidableEq

/-- The external document backends a parse run can consult, fixed per
input: what the PDF reader, the DOCX reader and the OCR engine would
return for the uploaded bytes. -/
structure ParseEnv where
  pdf : Except String (List PdfPage)
  docx : Except String DocxFile
  imageOcr : ImageOcrOutcome
deriving Repr, DecidableEq

/-- Embeds `parse_document` from services/parse.py.  For the PDF branch the
metadata layout flags are the hardcoded constants of lines 208-209, not the
values computed inside `extract_text_from_pdf`. -/
def parse_document (env : ParseEnv) (content : List Nat) (filename : String)
    (content_type : Option String) : Except ATSError ParsedDocument :=
  if content = [] then .error (.fileProcessingError "Empty file content")
  else
    match detect_filetype content filename content_type with
    | .error e => .error e
    | .ok filetype =>
      let extracted : Except ATSError (String × Bool × ℚ × Bool × Bool) :=
        if filetype = "pdf" then
          match extract_text_from_pdf_result env.pdf with
          | .ok (t, o, e) => .ok (t, o, e, true, false)
          | .error err => .error err
        else if filetype = "docx" then
          match extract_text_from_docx env.docx with
          | .ok (t, o, e) => .ok (t, o, e, false, true)
          | .error err => .error err
        else if filetype = "image" then
          match extract_text_from_image env.imageOcr with
          | .ok (t, o, e) => .ok (t, o, e, false, false)
          | .error err => .error err
        else .error (.fileProcessingError ("Unsupported file type: " ++ filetype))
      match extracted with
      | .error err => .error err
      | .ok (text, ocr_used, extractability_score, has_columns, has_tables) =>
        if pyStrip text = "" then
          .error (.textExtractionError "No text content extracted from document")
        else
          .ok ⟨text, ⟨filetype, has_columns, has_tables, extractability_score, ocr_used⟩⟩

/-! ## ComplianceChecker (services/lint.py): regex primitives -/

/-- Python regex word character (`\w`) on the ASCII inputs exercised
here. -/
def isWordChar (c : Char) : Bool := c.isAlphanum || c = '_'

/-- Whether the character at an index exists and is a word character. -/
def wordAt (l : List Char) (idx : Nat) : Bool :=
  decide (idx < l.length) && isWordChar (l.getD idx ' ')

/-- Regex word boundary `\b` between positions pos-1 and pos (text ends
count as non-word). -/
def boundaryAt (l : List Char) (pos : Nat) : Bool :=
  let prev := if pos = 0 then false else wordAt l (pos - 1)
  prev != wordAt l pos

/-- Literal match at a position. -/
def litAt (l : List Char) (p : Nat) (s : String) : Bool :=
  s.data.isPrefixOf (l.drop p)

/-- Length of the maximal digit run starting at a position. -/
def digitRunAt (l : List Char) (p : Nat) : Nat :=
  ((l.drop p).takeWhile Char.isDigit).length

/-- Exactly k digits readable at a position. -/
def digitsAt (l : List Char) (p k : Nat) : Bool :=
  decide (((l.drop p).take k).length = k) && ((l.drop p).take k).all Char.isDigit

/-- Length of the maximal whitespace run starting at a position. -/
def wsRunAt (l : List Char) (p : Nat) : Nat :=
  ((l.drop p).takeWhile pyIsSpace).length

/-- A run of n whitespace characters starts here. -/
def spaceRunFrom (n : Nat) (l : List Char) : Bool :=
  decide ((l.take n).length = n) && (l.take n).all pyIsSpace

/-- Regex search for `\s{n,}`: some position starts n consecutive
whitespace characters. -/
def hasSpaceRun (n : Nat) : List Char → Bool
  | [] => decide (n = 0)
  | c :: cs => spaceRunFrom n (c :: cs) || hasSpaceRun n cs

/-- One group of `(\s{3,}[^\s]+)`: at least three whitespace characters
then at least one non-whitespace character, both runs maximal (backtracking
to shorter runs cannot succeed because the follower rejects what the run
consumes), returning the remainder. -/
def spacedGroup (l : List Char) : Option (List Char) :=
  let ws := l.takeWhile pyIsSpace
  if ws.length ≥ 3 then
    let rest := l.drop ws.length
    let nw := rest.takeWhile (fun c => !pyIsSpace c)
    if nw.length ≥ 1 then some (rest.drop nw.length) else none
  else none

/-- Three consecutive groups of `(\s{3,}[^\s]+)` starting here. -/
def threeSpacedGroupsAt (l : List Char) : Bool :=
  match spacedGroup l with
  | none => false
  | some r1 =>
    match spacedGroup r1 with
    | none => false
    | some r2 => (spacedGroup r2).isSome

/-- Regex search for `(\s{3,}[^\s]+){3,}`. -/
def hasThreeSpacedGroups : List Char → Bool
  | [] => false
  | c :: cs => threeSpacedGroupsAt (c :: cs) || hasThreeSpacedGroups cs

/-- Character class `[A-Za-z0-9._%+-]` of the email regex local part. -/
def emailLocalChar (c : Char) : Bool :=
  c.isAlphanum || c = '.' || c = '_' || c = '%' || c = '+' || c = '-'

/-- Character class `[A-Za-z0-9.-]` of the email regex domain part. -/
def emailDomainChar (c : Char) : Bool :=
  c.isAlphanum || c = '.' || c = '-'

/-- Character class `[A-Z|a-z]` of the email regex top-level-domain part
(the class literally contains the pipe character). -/
def emailTldChar (c : Char) : Bool :=
  c.isAlpha || c = '|'

/-- Search for `\b[A-Za-z0-9._%+-]+@[A-Za-z0-9.-]+\.[A-Z|a-z]{2,}\b`:
existence of a decomposition local@domain.tld with word boundaries at both
ends, quantifying over the positions of the at sign, the final dot and the
end of the match. -/
def pyHasEmail (text : String) : Bool :=
  let l := text.data
  let n := l.length
  (List.range n).any (fun j =>
    decide (l.getD j ' ' = '@') &&
    (List.range n).any (fun i =>
      decide (i < j) && decide (j - i ≥ 1) &&
      ((l.drop i).take (j - i)).all emailLocalChar &&
      boundaryAt l i &&
      (List.range n).any (fun k =>
        decide (j < k) && decide (k - j - 1 ≥ 1) &&
        decide (l.getD k ' ' = '.') &&
        ((l.drop (j + 1)).take (k - j - 1)).all emailDomainChar &&
        (List.range (n + 1)).any (fun e =>
          decide (k < e) && decide (e ≤ n) && decide (e - k - 1 ≥ 2) &&
          ((l.drop (k + 1)).take (e - k - 1)).all emailTldChar &&
          boundaryAt l e))))

/-- Search for `\b\d{3}[-.]?\d{3}[-.]?\d{4}\b`, trying the four
combinations of optional separators (regex backtracking over the two
optional groups). -/
def pyHasPhone (text : String) : Bool :=
  let l := text.data
  let n := l.length
  let sepAt := fun (p : Nat) => decide (p < n) && (l.getD p ' ' = '-' || l.getD p ' ' = '.')
  (List.range n).any (fun i =>
    boundaryAt l i && digitsAt l i 3 &&
    ([1, 0].any (fun s1 =>
      (decide (s1 = 0) || sepAt (i + 3)) &&
      digitsAt l (i + 3 + s1) 3 &&
      ([1, 0].any (fun s2 =>
        (decide (s2 = 0) || sepAt (i + 6 + s1)) &&
        digitsAt l (i + 6 + s1 + s2) 4 &&
        boundaryAt l (i + 10 + s1 + s2))))))

/-- End positions reachable by consuming zero or more `([.,]\d+)` groups
from a position, in consumption order. -/
def numGroupEnds (l : List Char) : Nat → Nat → List Nat
  | 0, p => [p]
  | fuel + 1, p =>
    p ::
    (if (l.getD p ' ' = '.' || l.getD p ' ' = ',') && decide (digitRunAt l (p + 1) ≥ 1) then
      numGroupEnds l fuel (p + 1 + digitRunAt l (p + 1))
    else [])

/-- The optional unit suffix `(?:%|\$|k|million|billion)?` followed by
`\b`, tried in alternation order with the empty alternative last, returning
the end of the whole match. -/
def numSuffixEnd (l : List Char) (e : Nat) : Option Nat :=
  if litAt l e "%" && boundaryAt l (e + 1) then some (e + 1)
  else if litAt l e "$" && boundaryAt l (e + 1) then some (e + 1)
  else if litAt l e "k" && boundaryAt l (e + 1) then some (e + 1)
  else if litAt l e "million" && boundaryAt l (e + 7) then some (e + 7)
  else if litAt l e "billion" && boundaryAt l (e + 7) then some (e + 7)
  else if boundaryAt l e then some e
  else none

/-- First successful alternative over a list of candidate group ends. -/
def firstSuffixEnd (l : List Char) : List Nat → Option Nat
  | [] => none
  | e :: rest =>
    match numSuffixEnd l e with
    | some r => some r
    | none => firstSuffixEnd l rest

/-- Length of the `\b\d+(?:[.,]\d+)*(?:%|\$|k|million|billion)?\b` match
starting at a position, with regex preference: maximal digit run (shorter
runs end before a digit, where every continuation fails), most groups
first, unit suffix before the empty alternative. -/
def numberMatchLen (l : List Char) (i : Nat) : Option Nat :=
  let d := digitRunAt l i
  if d = 0 then none
  else if !boundaryAt l i then none
  else
    match firstSuffixEnd l ((numGroupEnds l l.length (i + d)).reverse) with
    | some e => some (e - i)
    | none => none

/-- Non-overlapping scan of `re.finditer`: count matches, resuming after
each match and advancing one position after a failure. -/
def countScan (matchLen : Nat → Option Nat) (n : Nat) : Nat → Nat → Nat
  | 0, _ => 0
  | fuel + 1, pos =>
    if pos ≥ n then 0
    else
      match matchLen pos with
      | some len => 1 + countScan matchLen n fuel (pos + len)
      | none => countScan matchLen n fuel (pos + 1)

/-- Count of quantified-number matches in a text. -/
def countNumberMatches (text : String) : Nat :=
  let l := text.data
  countScan (numberMatchLen l) l.length l.length 0

/-- Length of a `\d{4}\s*-\s*\d{4}` match starting at a position. -/
def dateP1Len (l : List Char) (i : Nat) : Option Nat :=
  if digitsAt l i 4 then
    let q := i + 4 + wsRunAt l (i + 4)
    if decide (q < l.length) && decide (l.getD q ' ' = '-') then
      let r := q + 1 + wsRunAt l (q + 1)
      if digitsAt l r 4 then some (r + 4 - i) else none
    else none
  else none

/-- Length of a `\d{1,2}/\d{4}` match starting at a position (two digits
preferred). -/
def dateP2Len (l : List Char) (i : Nat) : Option Nat :=
  if digitsAt l i 2 && decide (l.getD (i + 2) ' ' = '/') && digitsAt l (i + 3) 4 then some 7
  else if digitsAt l i 1 && decide (l.getD (i + 1) ' ' = '/') && digitsAt l (i + 2) 4 then some 6
  else none

/-- Length of an `[A-Za-z]+\s+\d{4}` match starting at a position (both
runs maximal; shorter runs make the follower fail). -/
def dateP3Len (l : List Char) (i : Nat) : Option Nat :=
  let a := ((l.drop i).takeWhile Char.isAlpha).length
  if a = 0 then none
  else
    let w := wsRunAt l (i + a)
    if w = 0 then none
    else if digitsAt l (i + a + w) 4 then some (a + w + 4) else none

/-- Total count of date-pattern matches over the three patterns. -/
def countDateMatches (text : String) : Nat :=
  let l := text.data
  countScan (dateP1Len l) l.length l.length 0 +
  countScan (dateP2Len l) l.length l.length 0 +
  countScan (dateP3Len l) l.length l.length 0

/-! ## ComplianceChecker (services/lint.py): the checks -/

/-- Embeds `check_multi_column_layout` from services/lint.py; a line can
add two suspicious counts, one per firing condition. -/
def check_multi_column_layout (text : String) : Bool :=
  let lines := pySplitOn '\n' text
  let content := lines.filter (fun line => pyStrip line ≠ "")
  let total_content_lines := content.length
  let suspicious_lines := (content.map (fun line =>
    (if hasSpaceRun 10 line.data then 1 else 0) +
    (if decide (10 < (pyStrip line).data.length) && decide ((pyStrip line).data.length < 30)
     then 1 else 0))).sum
  if total_content_lines = 0 then false
  else decide (((suspicious_lines : ℚ) / (total_content_lines : ℚ)) > 3/10)

/-- Embeds `check_table_formatting` from services/lint.py. -/
def check_table_formatting (text : String) : Bool :=
  let lines := pySplitOn '\n' text
  let content := lines.filter (fun line => pyStrip line ≠ "")
  let table_indicators := (content.map (fun line =>
    (if pyCount line "|" ≥ 2 then 1 else 0) +
    (if line.data.contains '\t' then 1 else 0) +
    (if hasThreeSpacedGroups line.data then 1 else 0))).sum
  table_indicators > 2

/-- Embeds `check_image_heavy_content` from services/lint.py. -/
def check_image_heavy_content (text : String) : Bool :=
  (pyWords text).length < 50

/-- The explicitly allowed punctuation of `check_font_readability`
(the Python literal includes brace characters and the apostrophe, written
here by code point). -/
def fontAllowedExtra : List Char :=
  [' ', '\n', '\t', '.', ',', ';', ':', '!', '?', '(', ')', '-', '_',
   '[', ']', Char.ofNat 123, Char.ofNat 125, '"', Char.ofNat 39, '/']

/-- Embeds `check_font_readability` from services/lint.py. -/
def check_font_readability (text : String) : Bool :=
  let total_chars := text.data.length
  if total_chars = 0 then false
  else
    let special_char_count :=
      (text.data.filter (fun c => !c.isAlphanum && !fontAllowedExtra.contains c)).length
    decide (((special_char_count : ℚ) / (total_chars : ℚ)) > 5/100)

/-- Embeds `check_contact_info_format` from services/lint.py (the
`has_links` regex is computed by the source and never used). -/
def check_contact_info_format (text : String) : Bool × List String :=
  let has_email := pyHasEmail text
  let has_phone := pyHasPhone text
  let issues :=
    (if !has_email then ["No email address found"] else []) ++
    (if !has_phone then ["No phone number found"] else [])
  (decide (issues.length = 0), issues)

/-- The fifteen standard header patterns of `check_section_headers`, in
source order, as whitespace-separated word sequences. -/
def headerPatterns : List (List String) :=
  [["experience"], ["education"], ["skills"], ["summary"],
   ["work", "experience"], ["professional", "experience"],
   ["technical", "skills"], ["core", "competencies"],
   ["employment"], ["career"], ["background"], ["qualifications"],
   ["achievements"], ["accomplishments"], ["projects"]]

/-- Embeds `check_section_headers` from services/lint.py. -/
def check_section_headers (text : String) : Bool :=
  (headerPatterns.filter (fun p => patSearch p text)).length ≥ 3

/-- Action verbs counted by the action-verb check. -/
def actionVerbs : List String :=
  ["achieved", "managed", "led", "developed", "created", "improved",
   "increased", "reduced", "implemented", "designed", "built", "delivered"]

/-! ## ComplianceChecker (services/lint.py): assembly -/

/-- Per-check contributions of `check_ats_compatibility`, in source order;
the sequential appends of the source produce exactly the concatenation of
these (warnings, passes) pairs. -/
def lintChecks (text : String) : List (List String × List String) :=
  [(if check_multi_column_layout text then
      (["Multi-column layout detected - may break ATS parsing"], [])
    else ([], ["Single-column layout is ATS-friendly"])),
   (if check_table_formatting text then
      (["Table-like formatting may break parsers"], [])
    else ([], ["No complex table formatting detected"])),
   (if check_image_heavy_content text then
      (["Low text density - document may be image-heavy"], [])
    else ([], ["Good text density for ATS parsing"])),
   (if check_font_readability text then
      (["Unusual characters detected - may indicate font issues"], [])
    else ([], ["Text appears cleanly formatted"])),
   (if !(check_contact_info_format text).1 then
      (((check_contact_info_format text).2).map (fun issue => "Contact info: " ++ issue), [])
    else ([], ["Contact information is properly formatted"])),
   (if !check_section_headers text then
      (["Missing or unclear section headers - need at least 3 standard sections"], [])
    else ([], ["Clear section headers found"])),
   (if (pyWords text).length < 300 then
      (["Resume too short - needs more detailed descriptions and achievements"], [])
    else if (pyWords text).length > 800 then
      (["Resume too long - ATS may truncate or skip content"], [])
    else ([], ["Resume length is appropriate"])),
   (if countNumberMatches text < 5 then
      (["Lacks sufficient quantified achievements - add more specific numbers, percentages, and metrics"], [])
    else ([], ["Good use of quantified achievements"])),
   (if (actionVerbs.filter (fun verb => pyContains (pyLower text) verb)).length < 3 then
      (["Few action verbs found - use strong action words to describe accomplishments"], [])
    else ([], ["Good use of action verbs"])),
   (if text.data.any (fun c => c.toNat > 127) then
      (["Non-standard characters found - may cause parsing issues"], [])
    else ([], ["Standard character encoding used"])),
   (if pyCount text "•" > 25 then
      (["Excessive bullet points may overwhelm ATS"], [])
    else if pyCount text "•" < 3 then
      (["Too few bullet points - use bullets to structure content"], [])
    else ([], ["Appropriate use of bullet points"])),
   (if ["image", "graphic", "chart", "table"].any (fun ind => pyContains (pyLower text) ind) then
      (["References to visual elements that ATS cannot parse"], [])
    else ([], [])),
   (if (["i ", "me ", "my ", "myself"].map (fun p => pyCount (pyLower text) p)).sum > 3 then
      (["Too many personal pronouns - use action-focused language instead"], [])
    else ([], ["Appropriate use of professional language"])),
   (if (["skill", "proficient", "experience with", "knowledge of"].filter
        (fun kw => pyContains (pyLower text) kw)).length < 2 then
      (["Skills section appears weak - clearly list technical and professional skills"], [])
    else ([], [])),
   (if countDateMatches text < 2 then
      (["Missing or unclear date formats - use consistent MM/YYYY format"], [])
    else ([], [])),
   (if !(["bachelor", "master", "phd", "degree", "university", "college"].any
        (fun kw => pyContains (pyLower text) kw)) then
      (["Education section missing or unclear"], [])
    else ([], []))]

/-- Embeds `check_ats_compatibility` from services/lint.py. -/
def check_ats_compatibility (text : String) : ATSWarnings :=
  ⟨((lintChecks text).map (fun c => c.1)).flatten,
   ((lintChecks text).map (fun c => c.2)).flatten⟩

/-! ## Concrete fixtures shared by the theorems -/

/-- Literal empty missing-skills record. -/
def emptyMissing : MissingSkills := ⟨[], []⟩

/-- Literal entirely empty MatchResults. -/
def emptyMatches : MatchResults := ⟨[], [], emptyMissing, [], [], []⟩

/-- Literal entirely empty JDRequirements (the no-requirements default
object produced by `parse_job_description` on faults). -/
def emptyJD : JDRequirements := ⟨[], [], 0, "unspecified", "Unknown Position", []⟩

/-- Step functions for `parse_job_description` whose skill-discovery step
raises, standing for an internal parse fault. -/
def c7FailSteps : JDSteps :=
  ⟨fun _ => .ok "Backend Engineer",
   fun _ => .error "taxonomy exploded",
   fun _ _ => .ok [],
   fun _ => .ok 0,
   fun _ => .ok "unspecified"⟩

/-- Recognized image text strictly longer than the 50-character
extractability cutoff. -/
def c4LongText : String :=
  "Work history section with roles and dates recovered by OCR."

/-- One single-column PDF page: two text blocks whose lines share the left
x coordinate 72, so clustering by round(x / 50) yields one cluster. -/
def c5Pages : List PdfPage :=
  [⟨"Python developer resume", none,
    [⟨0, some [⟨72⟩]⟩, ⟨100, some [⟨72⟩]⟩]⟩]

/-- Parse environment whose PDF backend reports the single-column page. -/
def c5Env : ParseEnv := ⟨.ok c5Pages, .ok ⟨[], []⟩, .text ""⟩

/-- Fixed deterministic embedding model giving the normalized pair from the
C3 fixture a cosine similarity of 4/5: both embeddings are one-dimensional
and the abstract norm is constantly one. -/
def c3Model : EmbeddingModel :=
  ⟨fun s => if s = "java beans" then [1] else [4/5], fun _ => 1⟩

/-- SkillMatcher state under the default scoring configuration. -/
def c3Matcher : SkillMatcherState := ⟨some c3Model, get_scoring_config⟩

/-- Job requirements with the single required skill "java beans". -/
def c3JD : JDRequirements :=
  ⟨[⟨"java beans", true, "", 8/10⟩], [], 0, "unspecified", "Backend Engineer",
   ["java beans"]⟩

/-- Resume entities with the single extracted skill "javabeans". -/
def c3Resume : ExtractedEntities :=
  ⟨[⟨"javabeans", "javabeans", 1, "skills", "javabeans"⟩], [], [], 0, none⟩

end ATS

namespace ATS

/-! ## Theorems -/

/-- C1 counterexample: the claim says `calculate_coverage_score` returns 100
when `JDRequirements` has no required and no preferred skills; on the literal
empty inputs the code returns 80, never 100. -/
theorem C1_coverage_counterexample :
    calculate_coverage_score emptyMatches emptyJD = 80 ∧
    ¬ calculate_coverage_score emptyMatches emptyJD = 100 := by
  constructor
  · rfl
  · decide

/-- C1 amended: `calculate_coverage_score` returns the single constant 80
whenever `JDRequirements` has no required and no preferred skills, in
particular also when `MatchResults` is entirely empty; there is no distinct
100-returning empty case. -/
theorem C1_coverage_no_requirements (m : MatchResults) (jd : JDRequirements)
    (hr : jd.required_skills = []) (hp : jd.preferred_skills = []) :
    calculate_coverage_score m jd = 80 := by
  unfold calculate_coverage_score
  simp [hr, hp]

/-- C1 witness: the amended theorem evaluated at the literal empty inputs. -/
theorem C1_coverage_no_requirements_witness :
    emptyJD.required_skills = [] ∧ emptyJD.preferred_skills = [] ∧
    calculate_coverage_score emptyMatches emptyJD = 80 :=
  ⟨rfl, rfl, C1_coverage_no_requirements emptyMatches emptyJD rfl rfl⟩

/-- Lookup in an appended dictionary when the key is found on the left. -/
theorem dictGet_append_of_some {d : List (String × String)} {k : String} {v : String}
    (e : List (String × String)) (h : dictGet? d k = some v) :
    dictGet? (d ++ e) k = some v := by
  induction d with
  | nil => simp [dictGet?] at h
  | cons p rest ih =>
    obtain ⟨k2, v2⟩ := p
    by_cases hk : k2 = k
    · simp [dictGet?, hk] at h ⊢
      simpa [dictGet?, hk] using h
    · simp [dictGet?, hk] at h ⊢
      exact ih h

/-- Lookup in an appended dictionary when the key is absent on the left. -/
theorem dictGet_append_of_none {d : List (String × String)} {k : String}
    (e : List (String × String)) (h : dictGet? d k = none) :
    dictGet? (d ++ e) k = dictGet? e k := by
  induction d with
  | nil => simp [dictGet?]
  | cons p rest ih =>
    obtain ⟨k2, v2⟩ := p
    by_cases hk : k2 = k
    · simp [dictGet?, hk] at h
    · simp [dictGet?, hk] at h ⊢
      exact ih h

/-- A key gained by one ensure step is kept by later ones. -/
theorem dictGet_ensure_step_mono (d : List (String × String)) (s k : String)
    (h : (dictGet? d k).isSome = true) :
    (dictGet? (if (dictGet? d s).isSome then d else d ++ [(s, "")]) k).isSome = true := by
  by_cases hs : (dictGet? d s).isSome
  · simpa [hs] using h
  · simp only [hs, if_false, Bool.false_eq_true]
    cases hdk : dictGet? d k with
    | none => rw [hdk] at h; simp at h
    | some v => rw [dictGet_append_of_some _ hdk]; rfl

/-- An ensure step makes its own key present. -/
theorem dictGet_ensure_step_self (d : List (String × String)) (s : String) :
    (dictGet? (if (dictGet? d s).isSome then d else d ++ [(s, "")]) s).isSome = true := by
  by_cases hs : (dictGet? d s).isSome
  · simp [hs]
  · simp only [hs, if_false, Bool.false_eq_true]
    cases hdk : dictGet? d s with
    | none => rw [dictGet_append_of_none _ hdk]; simp [dictGet?]
    | some v => rw [hdk] at hs; simp at hs

/-- After `ensureCoreSections` each of the four canonical keys is present. -/
theorem ensureCoreSections_has_core (d : List (String × String)) (k : String)
    (hk : k ∈ ["summary", "experience", "education", "skills"]) :
    (dictGet? (ensureCoreSections d) k).isSome = true := by
  unfold ensureCoreSections
  simp only [List.foldl]
  fin_cases hk
  · exact dictGet_ensure_step_mono _ _ _ (dictGet_ensure_step_mono _ _ _
      (dictGet_ensure_step_mono _ _ _ (dictGet_ensure_step_self d "summary")))
  · exact dictGet_ensure_step_mono _ _ _ (dictGet_ensure_step_mono _ _ _
      (dictGet_ensure_step_self _ "experience"))
  · exact dictGet_ensure_step_mono _ _ _ (dictGet_ensure_step_self _ "education")
  · exact dictGet_ensure_step_self _ "skills"

/-- C2 counterexample: on input with no recognizable section header the
claim requires all four canonical keys to be present, but `sectionize_text`
returns only the summary entry. -/
theorem C2_sectionize_counterexample :
    sectionize_text "hello world" = [("summary", "hello world")] ∧
    dictGet? (sectionize_text "hello world") "experience" = none := by
  constructor <;> decide

/-- C2 amended: when no line matches a header pattern, `sectionize_text`
returns exactly the singleton summary map holding the trimmed input (the
empty map for whitespace-only input); the four canonical keys are all
present whenever at least one header is recognized. -/
theorem C2_sectionize_sections (text : String) :
    (pyStrip text = "" → sectionize_text text = []) ∧
    (pyStrip text ≠ "" → find_section_boundaries text = [] →
      sectionize_text text = [("summary", pyStrip text)]) ∧
    (pyStrip text ≠ "" → find_section_boundaries text ≠ [] →
      ∀ k ∈ ["summary", "experience", "education", "skills"],
        (dictGet? (sectionize_text text) k).isSome = true) := by
  refine ⟨?_, ?_, ?_⟩
  · intro h
    simp [sectionize_text, h]
  · intro h hb
    simp [sectionize_text, h, hb]
  · intro h hb k hk
    simp only [sectionize_text, h, hb, if_false, ite_false]
    exact ensureCoreSections_has_core _ k hk

/-- C2 witness: both hypotheses of the amended theorem discharged at
concrete inputs. -/
theorem C2_sectionize_sections_witness :
    sectionize_text "hello world" = [("summary", "hello world")] ∧
    (dictGet? (sectionize_text "SKILLS\npython and java") "experience").isSome = true := by
  constructor
  · exact (C2_sectionize_sections "hello world").2.1 (by decide) (by decide)
  · exact (C2_sectionize_sections "SKILLS\npython and java").2.2 (by decide) (by decide)
      "experience" (by decide)

/-- C8: magic bytes dominate — content beginning with %PDF is "pdf"
whatever the filename and declared content type say; with no recognized
magic bytes, a ".txt" extension and no matching declared content type,
detection fails with FileProcessingError. -/
theorem C8_detect_filetype (content : List Nat) (filename : String) (ct : Option String) :
    ([0x25, 0x50, 0x44, 0x46].isPrefixOf content = true →
      detect_filetype content filename ct = .ok "pdf") ∧
    ([0x25, 0x50, 0x44, 0x46].isPrefixOf content = false →
     [0x50, 0x4b, 0x03, 0x04].isPrefixOf content = false →
     [0x89, 0x50, 0x4e, 0x47].isPrefixOf content = false →
     [0xff, 0xd8, 0xff].isPrefixOf content = false →
     [0x47, 0x49, 0x46, 0x38].isPrefixOf content = false →
     pyLower (pathSuffix filename) = ".txt" →
     noContentTypeMatch ct = true →
      detect_filetype content filename ct =
        .error (.fileProcessingError ("Unsupported file type: " ++ filename))) := by
  constructor
  · intro h
    unfold detect_filetype
    simp [h]
  · intro h1 h2 h3 h4 h5 hext hct
    unfold detect_filetype
    rw [hext]
    simp only [h1, h2, h3, h4, h5, Bool.false_eq_true, if_false, Bool.or_self, Bool.or_false,
      Bool.false_or]
    have hpdf : ¬ (filename ≠ "" ∧ (".txt" : String) = ".pdf") := by
      rintro ⟨-, hc⟩; exact absurd hc (by decide)
    have hdocx : ¬ (filename ≠ "" ∧ ((".txt" : String) = ".docx" ∨ (".txt" : String) = ".doc")) := by
      rintro ⟨-, hc | hc⟩ <;> exact absurd hc (by decide)
    have himg : ¬ (filename ≠ "" ∧ ((".txt" : String) = ".png" ∨ (".txt" : String) = ".jpg" ∨
        (".txt" : String) = ".jpeg" ∨ (".txt" : String) = ".gif" ∨
        (".txt" : String) = ".bmp" ∨ (".txt" : String) = ".tiff")) := by
      rintro ⟨-, hc | hc | hc | hc | hc | hc⟩ <;> exact absurd hc (by decide)
    rw [if_neg hpdf, if_neg hdocx, if_neg himg]
    cases ct with
    | none => rfl
    | some s =>
      simp only [noContentTypeMatch] at hct
      rcases Bool.or_eq_true_iff.mp hct with hs | hs
      · simp only [decide_eq_true_eq] at hs
        simp [hs]
      · have h1s := Bool.and_elim_left (Bool.and_elim_left (Bool.and_elim_left hs))
        have h2s := Bool.and_elim_right (Bool.and_elim_left (Bool.and_elim_left hs))
        have h3s := Bool.and_elim_right (Bool.and_elim_left hs)
        have h4s := Bool.and_elim_right hs
        simp only [Bool.not_eq_true'] at h1s h2s h3s h4s
        by_cases hse : s = ""
        · simp [hse]
        · simp [hse, h1s, h2s, h3s, h4s]

/-- C8 witness: both branches of the theorem exercised at concrete inputs:
a %PDF-prefixed byte string named "file.docx", and unrecognizable bytes
named "resume.txt" with no declared content type. -/
theorem C8_detect_filetype_witness :
    detect_filetype [0x25, 0x50, 0x44, 0x46, 0x2d] "file.docx" (some "text/plain") = .ok "pdf" ∧
    detect_filetype [104, 101, 108, 108, 111] "resume.txt" none =
      .error (.fileProcessingError "Unsupported file type: resume.txt") := by
  constructor
  · exact (C8_detect_filetype [0x25, 0x50, 0x44, 0x46, 0x2d] "file.docx" (some "text/plain")).1
      (by decide)
  · exact (C8_detect_filetype [104, 101, 108, 108, 111] "resume.txt" none).2
      (by decide) (by decide) (by decide) (by decide) (by decide) (by decide) (by decide)

/-- C4: when OCR recovers only whitespace from an image, the pipeline does
not surface the OCRError raised at parse.py line 173: the blanket
`except Exception` of the same function re-wraps it, so the caller sees a
TextExtractionError instead; the extractability halves of the claim hold
(0.8 above 50 stripped characters, else 0.5). -/
theorem C4_image_no_text_error_class :
    extract_text_from_image (.text "   ") =
      .error (.textExtractionError
        "Failed to extract text from image: No text found in image") ∧
    isOcrError (extract_text_from_image (.text "   ")) = false ∧
    extract_text_from_image (.text c4LongText) = .ok (c4LongText, true, 8/10) ∧
    extract_text_from_image (.text "short text") = .ok ("short text", true, 5/10) := by
  refine ⟨by decide, by decide, by decide, by decide⟩

/-- C5: the layout analysis of the single-column fixture page computes
(has_columns, has_tables) = (false, false), yet the ParsedDocument metadata
returned by parse_document for that PDF reports has_columns = true and
has_tables = false: the constants hardcoded at parse.py lines 208-209, not
the computed clustering values, which never leave extract_text_from_pdf. -/
theorem C5_pdf_layout_hardcoded :
    pdfLayoutFlags c5Pages = (false, false) ∧
    (parse_document c5Env [0x25, 0x50, 0x44, 0x46] "resume.pdf" none).map
      (fun d => d.meta) = .ok ⟨"pdf", true, false, 23/100, false⟩ := by
  refine ⟨by decide, by decide⟩

/-- Total output length of concatenated per-check contributions is the sum
of the per-check sizes. -/
theorem flatten_pair_length (cs : List (List String × List String)) :
    ((cs.map (fun c => c.1)).flatten).length + ((cs.map (fun c => c.2)).flatten).length =
      (cs.map (fun c => c.1.length + c.2.length)).sum := by
  induction cs with
  | nil => rfl
  | cons c rest ih =>
    simp only [List.map_cons, List.flatten_cons, List.length_append, List.sum_cons]
    omega

/-- A check with a warning branch and a pass branch contributes exactly one
string. -/
theorem size_two_way (c : Prop) [Decidable c] (w p : String) :
    ((if c then ([w], ([] : List String)) else ([], [p])).1.length +
     (if c then ([w], ([] : List String)) else ([], [p])).2.length) = 1 := by
  by_cases h : c <;> simp [h]

/-- A three-way check (two warning branches, one pass branch) contributes
exactly one string. -/
theorem size_three_way (c1 c2 : Prop) [Decidable c1] [Decidable c2] (w1 w2 p : String) :
    ((if c1 then ([w1], ([] : List String)) else if c2 then ([w2], []) else ([], [p])).1.length +
     (if c1 then ([w1], ([] : List String)) else if c2 then ([w2], []) else ([], [p])).2.length) = 1 := by
  by_cases h1 : c1 <;> by_cases h2 : c2 <;> simp [h1, h2]

/-- A warning-only check contributes at most one string. -/
theorem size_one_sided (c : Prop) [Decidable c] (w : String) :
    ((if c then ([w], ([] : List String)) else ([], [])).1.length +
     (if c then ([w], ([] : List String)) else ([], [])).2.length) ≤ 1 := by
  by_cases h : c <;> simp [h]

/-- The contact-info check contributes one pass, or one warning per missing
contact field: between one and two strings. -/
theorem size_contact (text : String) :
    1 ≤ ((if !(check_contact_info_format text).1 then
            (((check_contact_info_format text).2).map (fun issue => "Contact info: " ++ issue), [])
          else ([], ["Contact information is properly formatted"])).1.length +
         (if !(check_contact_info_format text).1 then
            (((check_contact_info_format text).2).map (fun issue => "Contact info: " ++ issue), [])
          else ([], ["Contact information is properly formatted"])).2.length) ∧
    ((if !(check_contact_info_format text).1 then
        (((check_contact_info_format text).2).map (fun issue => "Contact info: " ++ issue), [])
      else ([], ["Contact information is properly formatted"])).1.length +
     (if !(check_contact_info_format text).1 then
        (((check_contact_info_format text).2).map (fun issue => "Contact info: " ++ issue), [])
      else ([], ["Contact information is properly formatted"])).2.length) ≤ 2 := by
  cases he : pyHasEmail text <;> cases hp : pyHasPhone text <;>
    simp [check_contact_info_format, he, hp]

/-- C6 counterexample: the source runs sixteen checks, but on the input
"university" only fifteen strings are emitted: the contact-info check
contributes two warnings while the visual-element and education checks
contribute nothing, so a check does not contribute exactly one string. -/
theorem C6_lint_counterexample :
    (lintChecks "university").length = 16 ∧
    (check_ats_compatibility "university").warnings.length +
      (check_ats_compatibility "university").passes.length = 15 := by
  constructor <;> decide

/-- C6 amended: eleven checks (plus the two banded checks) contribute
exactly one warning or one pass each; the contact-info check contributes
one pass or one to two warnings; the visual-element, skills-density,
date-format and education checks contribute at most one warning and never
a pass; so every run emits between 12 and 17 strings rather than exactly
one per check. -/
theorem C6_lint_contribution_bounds (text : String) :
    12 ≤ (check_ats_compatibility text).warnings.length +
      (check_ats_compatibility text).passes.length ∧
    (check_ats_compatibility text).warnings.length +
      (check_ats_compatibility text).passes.length ≤ 17 := by
  have hflat := flatten_pair_length (lintChecks text)
  have hc := size_contact text
  have h12 := size_one_sided
    ((["image", "graphic", "chart", "table"].any (fun ind => pyContains (pyLower text) ind)) = true)
    "References to visual elements that ATS cannot parse"
  have h14 := size_one_sided
    ((["skill", "proficient", "experience with", "knowledge of"].filter
        (fun kw => pyContains (pyLower text) kw)).length < 2)
    "Skills section appears weak - clearly list technical and professional skills"
  have h15 := size_one_sided (countDateMatches text < 2)
    "Missing or unclear date formats - use consistent MM/YYYY format"
  have h16 := size_one_sided
    ((!(["bachelor", "master", "phd", "degree", "university", "college"].any
        (fun kw => pyContains (pyLower text) kw))) = true)
    "Education section missing or unclear"
  simp only [check_ats_compatibility]
  rw [hflat]
  simp only [lintChecks, List.map_cons, List.map_nil, List.sum_cons, List.sum_nil,
    size_two_way, size_three_way]
  constructor <;> omega

/-- C7: parse_job_description never propagates a fault: empty or
whitespace-only input, and any exception raised by an internal step, both
yield the all-empty requirements object. -/
theorem C7_parse_jd_graceful (steps : JDSteps) (jd_text : String) :
    (pyStrip jd_text = "" →
      parse_job_description steps jd_text =
        JDRequirements.mk [] [] 0 "unspecified" "Unknown Position" []) ∧
    (∀ e, runJDSteps steps jd_text = .error e →
      parse_job_description steps jd_text =
        JDRequirements.mk [] [] 0 "unspecified" "Unknown Position" []) := by
  constructor
  · intro h
    simp [parse_job_description, h]
  · intro e he
    by_cases h : pyStrip jd_text = ""
    · simp [parse_job_description, h]
    · simp [parse_job_description, h, he]

/-- C7 witness: a faulting skill-discovery step and a whitespace-only input
both produce the all-empty requirements object. -/
theorem C7_parse_jd_graceful_witness :
    parse_job_description c7FailSteps "Backend Engineer role" =
      JDRequirements.mk [] [] 0 "unspecified" "Unknown Position" [] ∧
    parse_job_description c7FailSteps "   " =
      JDRequirements.mk [] [] 0 "unspecified" "Unknown Position" [] := by
  constructor
  · exact (C7_parse_jd_graceful c7FailSteps "Backend Engineer role").2
      "taxonomy exploded" rfl
  · exact (C7_parse_jd_graceful c7FailSteps "   ").1 rfl

/-- Fuel-indexed indel distance is symmetric at every fuel value. -/
theorem indelF_symm (f : Nat) : ∀ a b, indelF f a b = indelF f b a := by
  induction f with
  | zero =>
    intro a b
    simp [indelF, Nat.add_comm]
  | succ f ih =>
    intro a b
    cases a with
    | nil =>
      cases b with
      | nil => rfl
      | cons y ys => simp [indelF]
    | cons x xs =>
      cases b with
      | nil => simp [indelF]
      | cons y ys =>
        simp only [indelF]
        by_cases h : x = y
        · rw [if_pos h, if_pos h.symm, ih xs ys]
        · rw [if_neg h, if_neg (fun hh => h hh.symm)]
          rw [ih xs (y :: ys), ih (x :: xs) ys, Nat.min_comm]

/-- Indel distance is symmetric. -/
theorem indelDist_symm (a b : List Char) : indelDist a b = indelDist b a := by
  unfold indelDist
  rw [Nat.add_comm, indelF_symm]

/-- Normalized fuzzy ratio is symmetric. -/
theorem fuzzRatio_symm (s1 s2 : String) : fuzzRatio s1 s2 = fuzzRatio s2 s1 := by
  simp only [fuzzRatio]
  rw [show s2.data.length + s1.data.length = s1.data.length + s2.data.length from
    Nat.add_comm _ _, indelDist_symm s2.data s1.data]

/-- Dot product of rational vectors is symmetric. -/
theorem dotQ_symm (a : List ℚ) : ∀ b, dotQ a b = dotQ b a := by
  induction a with
  | nil =>
    intro b
    cases b <;> simp [dotQ]
  | cons x xs ih =>
    intro b
    cases b with
    | nil => simp [dotQ]
    | cons y ys => simp [dotQ, mul_comm, ih]

/-- Cosine similarity of fixed deterministic embeddings is symmetric. -/
theorem cosineSim_symm (m : EmbeddingModel) (a b : String) :
    cosineSim m a b = cosineSim m b a := by
  unfold cosineSim
  rw [dotQ_symm, mul_comm]

/-- C10: calculate_similarity is symmetric in its two skill arguments,
treating the embedding model as a fixed deterministic function. -/
theorem C10_calculate_similarity_symm (M : SkillMatcherState) (s1 s2 : String) :
    calculate_similarity M s1 s2 = calculate_similarity M s2 s1 := by
  obtain ⟨mdl, cfg⟩ := M
  simp only [calculate_similarity]
  by_cases h1 : pyStrip (pyLower s1) = pyStrip (pyLower s2)
  · rw [if_pos h1, if_pos h1.symm]
  · have h1s : ¬ pyStrip (pyLower s2) = pyStrip (pyLower s1) := fun hh => h1 hh.symm
    rw [if_neg h1, if_neg h1s]
    by_cases h2 : synGet (pyStrip (pyLower s1)) = synGet (pyStrip (pyLower s2))
    · rw [if_pos h2, if_pos h2.symm]
    · have h2s : ¬ synGet (pyStrip (pyLower s2)) = synGet (pyStrip (pyLower s1)) :=
        fun hh => h2 hh.symm
      rw [if_neg h2, if_neg h2s]
      rw [fuzzRatio_symm (synGet (pyStrip (pyLower s2))) (synGet (pyStrip (pyLower s1)))]
      cases mdl with
      | none => rfl
      | some m =>
        dsimp only
        rw [cosineSim_symm m (synGet (pyStrip (pyLower s2)))
          (synGet (pyStrip (pyLower s1)))]

/-- C3: the missing/weakly-supported classification is inverted.  At the
failing input the single required skill scores 18/25 = 0.72, which lies
between the default weak-support threshold 0.65 and the required-hit
threshold 0.75, so the claim places it in weakly_supported; the code
instead lists it as missing, and under the default configuration the
weakly_supported branch (similarity at least 0.75 yet below 0.65) is
unsatisfiable, so weakly_supported is always empty. -/
theorem C3_weak_support_classification :
    (match_skills c3Matcher c3JD c3Resume).required_matches.map (fun m => m.similarity) =
      [18/25] ∧
    get_scoring_config.weak_support ≤ 18/25 ∧
    (18/25 : ℚ) < get_scoring_config.required_hit ∧
    (match_skills c3Matcher c3JD c3Resume).missing.required = ["java beans"] ∧
    (match_skills c3Matcher c3JD c3Resume).weakly_supported = [] ∧
    ∀ (mdl : Option EmbeddingModel) (jd : JDRequirements) (res : ExtractedEntities),
      (match_skills ⟨mdl, get_scoring_config⟩ jd res).weakly_supported = [] := by
  refine ⟨by decide, by decide, by decide, by decide, by decide, ?_⟩
  intro mdl jd res
  simp only [match_skills]
  rw [List.filterMap_eq_nil_iff]
  intro m _
  have hcfg : ¬ (¬ m.similarity < (get_scoring_config).required_hit ∧
      m.similarity < (get_scoring_config).weak_support) := by
    rintro ⟨hge, hlt⟩
    have h1 : (get_scoring_config).weak_support ≤ (get_scoring_config).required_hit := by
      norm_num [get_scoring_config]
    push_neg at hge
    linarith
  rw [if_neg hcfg]

/-- C9: with the default weights (0.6 coverage, 0.3 experience, 0.1
education) `calculate_overall_score` returns 78 on (80, 70, 90), 0 on
(0, 0, 0) and 100 on (100, 100, 100). -/
theorem C9_overall_score_values :
    calculate_overall_score 80 70 90 = 78 ∧
    calculate_overall_score 0 0 0 = 0 ∧
    calculate_overall_score 100 100 100 = 100 := by
  refine ⟨?_, ?_, ?_⟩ <;> decide

end ATS
